import Mathlib

/-!
Verification of the Go-Dynamo-Echo service (src/main.go): a five-route CRUD
HTTP service over a DynamoDB `users` table, built on the Echo router.  The
definitions below are a shallow embedding of the program: the table store is
an explicit association list, store and session failures are injected as
explicit `Option String` error arguments, and the JSON encoder on the
response path is modelled by an inductive `Json` value type.
-/

namespace GoDynamoEcho

/-- The `User` struct of the program: fields `id`, `name`, `age` in JSON tag
order.  Go `int` is modelled as `Int`. -/
structure User where
  id : String
  name : String
  age : Int
deriving DecidableEq

/-- A DynamoDB SDK `AttributeValue`; the program only uses the `S` (string)
and `N` (numeric string) pointer fields, where `none` models a nil pointer.
Fields in order: `S`, then `N`. -/
structure AttributeValue where
  S : Option String
  N : Option String
deriving DecidableEq

/-- An item of the table: the attribute-name-to-value map of the SDK,
as an association list. -/
abbrev Item := List (String × AttributeValue)

/-- The `users` table: association list from the `id` key to the stored
item. -/
abbrev Table := List (String × Item)

/-- Point lookup (the GetItem call issued by `getUser`): the item stored
under a key, if any. -/
def Table.getItem (t : Table) (key : String) : Option Item :=
  match t with
  | [] => none
  | (k, it) :: rest => if k = key then some it else Table.getItem rest key

/-- Unconditional overwrite (the PutItem call issued by `createUser`):
replaces whatever item is stored under the key. -/
def Table.putItem (t : Table) (key : String) (item : Item) : Table :=
  match t with
  | [] => [(key, item)]
  | (k, it) :: rest =>
    if k = key then (key, item) :: rest
    else (k, it) :: Table.putItem rest key item

/-- The DeleteItem call issued by `deleteUser`: removes the item under the
key; it is not an error if no such item exists. -/
def Table.deleteItem (t : Table) (key : String) : Table :=
  t.filter (fun p => p.1 != key)

/-- The unbounded Scan issued by `getUsers`: every item of the table. -/
def Table.scan (t : Table) : List Item :=
  t.map Prod.snd

/-- One `SET` assignment of an UpdateItem expression: store an attribute
value under an attribute name, adding the attribute if absent. -/
def setAttr (item : Item) (k : String) (v : AttributeValue) : Item :=
  match item with
  | [] => [(k, v)]
  | (k2, v2) :: rest =>
    if k2 = k then (k, v) :: rest else (k2, v2) :: setAttr rest k v

/-- The UpdateItem call issued by `updateUser`, with update expression
`set #n = :n, #a = :a` for attribute names `name` and `age`: when no item
exists under the key, DynamoDB creates one holding the key attribute and
the two set attributes only. -/
def Table.updateItem (t : Table) (key : String) (nameV ageV : AttributeValue) : Table :=
  match Table.getItem t key with
  | some item => Table.putItem t key (setAttr (setAttr item "name" nameV) "age" ageV)
  | none =>
    Table.putItem t key
      [("id", ⟨some key, none⟩), ("name", nameV), ("age", ageV)]

/-- Decimal digits of `n`, most significant first; fuel-bounded so that the
recursion is structural.  Any `fuel > n` yields the digits of `n`. -/
def toDecCharsAux (fuel n : Nat) : List Char :=
  match fuel with
  | 0 => []
  | f + 1 =>
    if n < 10 then [Nat.digitChar n]
    else toDecCharsAux f (n / 10) ++ [Nat.digitChar (n % 10)]

/-- The decimal digit string of a natural number. -/
def toDecChars (n : Nat) : List Char :=
  toDecCharsAux (n + 1) n

/-- Go `fmt.Sprintf` with verb `%d` on an integer, as used to encode `age`
into the `N` attribute on the PutItem / UpdateItem path. -/
def formatInt (i : Int) : String :=
  if i < 0 then String.mk ('-' :: toDecChars (-i).toNat)
  else String.mk (toDecChars i.toNat)

/-- Numeric value of a digit string (leading digit first). -/
def decVal (cs : List Char) : Nat :=
  cs.foldl (fun a c => a * 10 + (c.toNat - 48)) 0

/-- Parse a non-empty all-digit run of characters as a natural number. -/
def parseDigits (cs : List Char) : Option Nat :=
  if cs = [] then none
  else if cs.all Char.isDigit then some (decVal cs) else none

/-- Decimal integer reading on a character list: an optional leading minus
sign followed by a non-empty digit run. -/
def atoiChars (cs : List Char) : Option Int :=
  match cs with
  | [] => none
  | c :: rest =>
    if c = '-' then (parseDigits rest).map (fun n => -(n : Int))
    else (parseDigits (c :: rest)).map (fun n => (n : Int))

/-- Decimal reading of a stored `N` numeric string.  The source's own age
read-back is `int(*item["age"].N)` — a string-to-int conversion of the
`*string` field `N`, which is not a conversion Go defines, so that step of
the code is ill-typed and has no code semantics.  This function is the
spec's stated inverse of the `%d` encoding; the results below rely on it
only through its failure (`none`) cases, never through a parsed value. -/
def atoi (s : String) : Option Int :=
  atoiChars s.data

/-- Attribute lookup in an item (`item[k]` on the Go attribute map). -/
def lookupAttr (item : Item) (k : String) : Option AttributeValue :=
  match item with
  | [] => none
  | (k2, v) :: rest => if k2 = k then some v else lookupAttr rest k

/-- `item[k].S`: the string form of an attribute; `none` when the attribute
is absent or its `S` pointer is nil. -/
def attrS (item : Item) (k : String) : Option String :=
  (lookupAttr item k).bind AttributeValue.S

/-- `item[k].N`: the numeric-string form of an attribute; `none` when the
attribute is absent or its `N` pointer is nil. -/
def attrN (item : Item) (k : String) : Option String :=
  (lookupAttr item k).bind AttributeValue.N

/-- The record-mapping step shared by `getUsers` and `getUser`: build a
`User` from a stored item via `*item["id"].S`, `*item["name"].S` and the
integer conversion of `*item["age"].N`.  `none` models the nil-pointer
dereference (or failed numeric conversion): the handlers perform no nil
checks before dereferencing.  A successful age value comes from `atoi`,
which the source — whose conversion is ill-typed Go — does not back;
no result below depends on such a value, only on the `none` cases. -/
def itemToUser (item : Item) : Option User :=
  (attrS item "id").bind fun i =>
    (attrS item "name").bind fun nm =>
      ((attrN item "age").bind atoi).map fun a => ⟨i, nm, a⟩

/-- The `getUsers` mapping loop over the scanned items, in order; `none`
models the panic raised at the first malformed item. -/
def scanUsers : List Item → Option (List User)
  | [] => some []
  | it :: rest =>
    match itemToUser it with
    | none => none
    | some u => (scanUsers rest).map (fun us => u :: us)

/-- An item on which the record-mapping step dereferences a nil pointer (or
fails the numeric conversion): the `id` or `name` attribute is absent or not
in string form, or the `age` attribute is absent or not in numeric form. -/
def itemMalformed (item : Item) : Prop :=
  attrS item "id" = none ∨ attrS item "name" = none ∨
    (attrN item "age").bind atoi = none

instance (item : Item) : Decidable (itemMalformed item) := by
  unfold itemMalformed
  infer_instance

/-- JSON values, as produced by the JSON encoder on the response path. -/
inductive Json where
  | null
  | str (s : String)
  | num (i : Int)
  | arr (elems : List Json)
  | obj (fields : List (String × Json))

/-- Marshalling of the `User` struct, field order as declared. -/
def userJson (u : User) : Json :=
  .obj [("id", .str u.id), ("name", .str u.name), ("age", .num u.age)]

/-- The body Echo's default error handler writes for an HTTPError carrying
a message string. -/
def msgJson (m : String) : Json :=
  .obj [("message", .str m)]

/-- Marshalling of the `users` slice built by the `getUsers` loop: with no
records the slice is never appended to and stays nil, and a nil slice
encodes as JSON `null`; otherwise it encodes as an array. -/
def usersJson (us : List User) : Json :=
  match us with
  | [] => .null
  | l => .arr (l.map userJson)

/-- An HTTP response: status code and optional JSON body (`none` is the
empty body of `c.NoContent`). -/
structure Response where
  status : Nat
  body : Option Json

/-- What one handler invocation does before any middleware intervenes. -/
inductive Outcome where
  | resp (r : Response)
  | panicked
  | fatal

/-- `getDynamoDBClient`: session construction, with a `session.NewSession`
failure injected via `sessionErr`.  On failure the code calls `log.Fatal`,
whose message is the concatenation (no added space before a string operand)
of the literal and the error text; this halts the process. -/
def getDynamoDBClient (sessionErr : Option String) : Except String Unit :=
  match sessionErr with
  | some e => .error ("Failed to create AWS session:" ++ e)
  | none => .ok ()

/-- `GET /users` (`getUsers`).  `storeErr` injects a failure of the Scan
call; `log.Println` joins its operands with spaces.  Returns the outcome,
the table afterwards and the log lines written. -/
def getUsers (t : Table) (storeErr : Option String) : Outcome × Table × List String :=
  match storeErr with
  | some e =>
    (.resp ⟨500, some (msgJson "Failed to retrieve users")⟩, t,
      ["Failed to retrieve users: " ++ e])
  | none =>
    match scanUsers t.scan with
    | none => (.panicked, t, [])
    | some us => (.resp ⟨200, some (usersJson us)⟩, t, [])

/-- `GET /users/:id` (`getUser`): point lookup by the path id; 404 when the
lookup returns no item, otherwise the mapped record as JSON. -/
def getUser (t : Table) (id : String) (storeErr : Option String) :
    Outcome × Table × List String :=
  match storeErr with
  | some e =>
    (.resp ⟨500, some (msgJson "Failed to retrieve user")⟩, t,
      ["Failed to retrieve user: " ++ e])
  | none =>
    match Table.getItem t id with
    | none => (.resp ⟨404, some (msgJson "User not found")⟩, t, [])
    | some item =>
      match itemToUser item with
      | none => (.panicked, t, [])
      | some u => (.resp ⟨200, some (userJson u)⟩, t, [])

/-- The item assembled for the PutItem input of `createUser`: attributes
`id`, `name` (S strings) and `age` (N numeric string via `%d`). -/
def userItem (u : User) : Item :=
  [("id", ⟨some u.id, none⟩), ("name", ⟨some u.name, none⟩),
    ("age", ⟨none, some (formatInt u.age)⟩)]

/-- `POST /users` (`createUser`).  `body` is the result of `c.Bind` on the
request body, `none` when the body is not decodable; `storeErr` injects a
PutItem failure. -/
def createUser (t : Table) (body : Option User) (storeErr : Option String) :
    Outcome × Table × List String :=
  match body with
  | none => (.resp ⟨400, some (msgJson "Invalid request payload")⟩, t, [])
  | some u =>
    match storeErr with
    | some e =>
      (.resp ⟨500, some (msgJson "Failed to create user")⟩, t,
        ["Failed to create user: " ++ e])
    | none => (.resp ⟨201, some (userJson u)⟩, Table.putItem t u.id (userItem u), [])

/-- `PUT /users/:id` (`updateUser`): the UpdateItem call is keyed by the
path id and sets only `name` and `age`; the response echoes the decoded
body. -/
def updateUser (t : Table) (id : String) (body : Option User) (storeErr : Option String) :
    Outcome × Table × List String :=
  match body with
  | none => (.resp ⟨400, some (msgJson "Invalid request payload")⟩, t, [])
  | some u =>
    match storeErr with
    | some e =>
      (.resp ⟨500, some (msgJson "Failed to update user")⟩, t,
        ["Failed to update user: " ++ e])
    | none =>
      (.resp ⟨200, some (userJson u)⟩,
        Table.updateItem t id ⟨some u.name, none⟩ ⟨none, some (formatInt u.age)⟩, [])

/-- `DELETE /users/:id` (`deleteUser`): 204 with empty body on store
success, whether or not an item existed. -/
def deleteUser (t : Table) (id : String) (storeErr : Option String) :
    Outcome × Table × List String :=
  match storeErr with
  | some e =>
    (.resp ⟨500, some (msgJson "Failed to delete user")⟩, t,
      ["Failed to delete user: " ++ e])
  | none => (.resp ⟨204, none⟩, Table.deleteItem t id, [])

/-- A routed request, carrying the path/body inputs of its handler and the
injected result of the store call it issues (`none` = store success). -/
inductive Request where
  | list (storeErr : Option String)
  | get (id : String) (storeErr : Option String)
  | create (body : Option User) (storeErr : Option String)
  | update (id : String) (body : Option User) (storeErr : Option String)
  | del (id : String) (storeErr : Option String)

/-- One incoming request together with the injected result of the
`session.NewSession` call its handler performs first. -/
structure Event where
  sessionErr : Option String
  req : Request

/-- One handler invocation: every handler constructs the store client first
(`getDynamoDBClient`), so a session failure is fatal before any handler
logic runs; then the router dispatches on the route. -/
def handle (t : Table) (ev : Event) : Outcome × Table × List String :=
  match getDynamoDBClient ev.sessionErr with
  | .error m => (.fatal, t, [m])
  | .ok _ =>
    match ev.req with
    | .list se => getUsers t se
    | .get id se => getUser t id se
    | .create b se => createUser t b se
    | .update id b se => updateUser t id b se
    | .del id se => deleteUser t id se

/-- The visible effect of one request: a response, or a process halt. -/
inductive Served where
  | response (r : Response)
  | halted

/-- Middleware layer: the Recover middleware converts a panic into a 500
response with Echo's default message, while `log.Fatal` (process exit) is
not recoverable. -/
def serve (t : Table) (ev : Event) : Served × Table × List String :=
  match handle t ev with
  | (.fatal, t2, lg) => (.halted, t2, lg)
  | (.panicked, t2, lg) =>
    (.response ⟨500, some (msgJson "Internal Server Error")⟩, t2, lg)
  | (.resp r, t2, lg) => (.response r, t2, lg)

/-- The state after serving a sequence of requests: responses sent in
order, whether the process halted, the final table, and the log. -/
structure RunState where
  responses : List Response
  halted : Bool
  table : Table
  log : List String

/-- The serving loop: requests are handled in order until the list is
exhausted or the process halts; a halt produces no response for the
failing request and none for any later one. -/
def processRun (t : Table) : List Event → RunState
  | [] => ⟨[], false, t, []⟩
  | ev :: rest =>
    match serve t ev with
    | (.halted, t2, lg) => ⟨[], true, t2, lg⟩
    | (.response r, t2, lg) =>
      let s := processRun t2 rest
      ⟨r :: s.responses, s.halted, s.table, lg ++ s.log⟩

/-- A stored item holding only an `id` attribute: an item a foreign writer
could have put into the shared table, on which the record-mapping step has
no value. -/
def badItem : Item :=
  [("id", ⟨some "u1", none⟩)]

/-- A table holding only `badItem`, under key `u1`. -/
def badTable : Table :=
  [("u1", badItem)]

/-! Auxiliary lemmas on the record-mapping of malformed items. -/

theorem itemToUser_of_malformed (item : Item) (h : itemMalformed item) :
    itemToUser item = none := by
  unfold itemToUser
  rcases h with h | h | h
  · simp [h]
  · cases attrS item "id" <;> simp [h]
  · cases attrS item "id" <;> cases attrS item "name" <;> simp [h]

theorem scanUsers_of_malformed (item : Item) (h : itemMalformed item) :
    ∀ items : List Item, item ∈ items → scanUsers items = none := by
  intro items hmem
  induction items with
  | nil => cases hmem
  | cons it rest ih =>
    rcases List.mem_cons.mp hmem with heq | hmem2
    · subst heq
      simp [scanUsers, itemToUser_of_malformed item h]
    · cases h2 : itemToUser it <;> simp [scanUsers, h2, ih hmem2]

/-! The claims. -/

/-- C1 (code bug, evaluated at the failing input): the Create half of the
round trip is real code and works — `POST /users {id:"1",name:"Alice",
age:30}` responds 201 and stores `age` as the decimal `N` string `"30"`.
The Get half must convert that string back to an integer, but the source's
read-back `int(*result.Item["age"].N)` applies Go's integer conversion to
a string (`N` is `*string`), a conversion Go does not define: the mapping
step performs no parse, so the claimed round trip is the spec's intent and
not the code's behaviour. -/
theorem create_stores_decimal_age_string :
    (handle [] ⟨none, .create (some ⟨"1", "Alice", 30⟩) none⟩).1
        = .resp ⟨201, some (userJson ⟨"1", "Alice", 30⟩)⟩ ∧
      Table.getItem ((handle [] ⟨none, .create (some ⟨"1", "Alice", 30⟩) none⟩).2.1) "1"
        = some [("id", ⟨some "1", none⟩), ("name", ⟨some "Alice", none⟩),
            ("age", ⟨none, some "30"⟩)] :=
  ⟨rfl, rfl⟩

/-- C2 counterexample: a List (GET /users) whose scan succeeds and returns
no records responds 200 with body JSON `null`, and `null` is not the empty
JSON array. -/
theorem scan_empty_null_counterexample :
    (handle [] ⟨none, .list none⟩).1 = .resp ⟨200, some Json.null⟩ ∧
      Json.null ≠ Json.arr [] :=
  ⟨rfl, fun h => nomatch h⟩

/-- C2 amended: when the store scan succeeds and returns no records, the
response is status 200 with the JSON body being `null` (the encoding of the
never-appended nil slice), not an empty array. -/
theorem scan_empty_responds_null (t : Table) (h : t.scan = []) :
    (handle t ⟨none, .list none⟩).1 = .resp ⟨200, some Json.null⟩ := by
  show (getUsers t none).1 = _
  simp [getUsers, h, scanUsers, usersJson]

/-- C2 amended, witness at the empty table. -/
theorem scan_empty_responds_null_witness :
    Table.scan [] = [] ∧
      (handle [] ⟨none, .list none⟩).1 = .resp ⟨200, some Json.null⟩ :=
  ⟨rfl, scan_empty_responds_null [] rfl⟩

/-- C3 counterexample: a PUT on path id `abc` whose body carries id `zzz`
writes the record under `abc` (body id ignored by the write), but the 200
response body is the echoed decoded body, whose id field is the body's
`zzz`, not a record for the path id `abc`. -/
theorem update_echoes_body_id_counterexample :
    (handle [] ⟨none, .update "abc" (some ⟨"zzz", "Nia", 1⟩) none⟩).1
        = .resp ⟨200, some (userJson ⟨"zzz", "Nia", 1⟩)⟩ ∧
      Table.getItem ((handle [] ⟨none, .update "abc" (some ⟨"zzz", "Nia", 1⟩) none⟩).2.1)
          "abc"
        = some [("id", ⟨some "abc", none⟩), ("name", ⟨some "Nia", none⟩),
            ("age", ⟨none, some "1"⟩)] ∧
      userJson ⟨"zzz", "Nia", 1⟩ ≠ userJson ⟨"abc", "Nia", 1⟩ :=
  ⟨rfl, rfl, by simp [userJson]⟩

/-- C3 amended: for every Update with a decodable body, the store write is
keyed by the path id and the body's id field plays no part in it, but the
200 response body is the decoded body echoed verbatim: its id field is the
body's id (empty string when absent), not the path id. -/
theorem update_write_keyed_by_path_id (t : Table) (id : String) (u : User) :
    handle t ⟨none, .update id (some u) none⟩
      = (.resp ⟨200, some (userJson u)⟩,
          Table.updateItem t id ⟨some u.name, none⟩ ⟨none, some (formatInt u.age)⟩,
          []) :=
  rfl

/-- C4 counterexample: the store client is constructed inside each handler,
so a session-construction failure can occur after requests have been
served: in this run the first request is answered, the second one's
session construction fails and halts the process; hence the halt does not
happen before any traffic is served. -/
theorem session_failure_after_traffic_counterexample :
    (processRun [] [⟨none, .create (some ⟨"1", "Alice", 30⟩) none⟩,
        ⟨some " no credentials", .get "1" none⟩]).halted = true ∧
      (processRun [] [⟨none, .create (some ⟨"1", "Alice", 30⟩) none⟩,
          ⟨some " no credentials", .get "1" none⟩]).responses.length = 1 :=
  ⟨rfl, rfl⟩

/-- C4 amended: failure to construct the store session/client is fatal
(`log.Fatal`) and halts the process at once: the failing request receives
no response and no later request is ever handled.  But the construction
happens per request inside each handler, not at startup, so the failure
occurs during request handling and earlier requests may already have been
served. -/
theorem session_failure_halts (t : Table) (d : String) (r : Request) (rest : List Event) :
    processRun t (⟨some d, r⟩ :: rest)
      = ⟨[], true, t, ["Failed to create AWS session:" ++ d]⟩ :=
  rfl

/-- C5: a Create or Update whose body does not decode responds 400 with the
fixed message and issues no store write: the table is unchanged and nothing
is logged, whatever the store call would have returned. -/
theorem bad_body_400_no_write (t : Table) (id : String) (se1 se2 : Option String) :
    handle t ⟨none, .create none se1⟩
        = (.resp ⟨400, some (msgJson "Invalid request payload")⟩, t, []) ∧
      handle t ⟨none, .update id none se2⟩
        = (.resp ⟨400, some (msgJson "Invalid request payload")⟩, t, []) :=
  ⟨rfl, rfl⟩

/-- C6 (code bug, evaluated at the failing input): the 404 half is real
code — a Get on a key with no item responds 404 — and the point lookup of
the found half is real code too: it returns the stored item, whose `age`
attribute is the decimal `N` string `"30"`.  The next source step builds
the record's age as `int(*result.Item["age"].N)`, an integer conversion of
a string that Go does not define, so the claimed `200 with that single
record` is the spec's intent with no code semantics behind the age field. -/
theorem get_found_item_age_is_string :
    (handle [("1", [("id", ⟨some "1", none⟩), ("name", ⟨some "Alice", none⟩),
          ("age", ⟨none, some "30"⟩)])] ⟨none, .get "9" none⟩).1
        = .resp ⟨404, some (msgJson "User not found")⟩ ∧
      Table.getItem [("1", [("id", ⟨some "1", none⟩), ("name", ⟨some "Alice", none⟩),
            ("age", ⟨none, some "30"⟩)])] "1"
        = some [("id", ⟨some "1", none⟩), ("name", ⟨some "Alice", none⟩),
            ("age", ⟨none, some "30"⟩)] :=
  ⟨rfl, rfl⟩

/-- C7: Delete is idempotent: on store success it responds 204 with an
empty body whatever the table holds, and deleting the same id twice in a
row returns 204 both times without halting. -/
theorem delete_idempotent_204 (t : Table) (id : String) :
    (handle t ⟨none, .del id none⟩).1 = .resp ⟨204, none⟩ ∧
      (processRun t [⟨none, .del id none⟩, ⟨none, .del id none⟩]).responses
        = [⟨204, none⟩, ⟨204, none⟩] ∧
      (processRun t [⟨none, .del id none⟩, ⟨none, .del id none⟩]).halted = false :=
  ⟨rfl, rfl, rfl⟩

/-- C8 counterexample: the 500 messages are fixed but not uniform across
the five operations: a failing List responds with a different message than
a failing Create. -/
theorem store_error_message_not_uniform_counterexample :
    (handle [] ⟨none, .list (some "boom")⟩).1
        = .resp ⟨500, some (msgJson "Failed to retrieve users")⟩ ∧
      (handle [] ⟨none, .create (some ⟨"1", "Alice", 30⟩) (some "boom")⟩).1
        = .resp ⟨500, some (msgJson "Failed to create user")⟩ ∧
      ("Failed to retrieve users" : String) ≠ "Failed to create user" :=
  ⟨rfl, rfl, by decide⟩

/-- C8 amended: any store-layer failure on any of the five operations is
surfaced as status 500 with a fixed message that does not depend on the
failure detail — but the message is fixed per operation, not uniform
across the operations — while the detail goes to the log only and the
table is unchanged. -/
theorem store_failure_500_logged (t : Table) (d id : String) (u : User) :
    handle t ⟨none, .list (some d)⟩
        = (.resp ⟨500, some (msgJson "Failed to retrieve users")⟩, t,
            ["Failed to retrieve users: " ++ d]) ∧
      handle t ⟨none, .get id (some d)⟩
        = (.resp ⟨500, some (msgJson "Failed to retrieve user")⟩, t,
            ["Failed to retrieve user: " ++ d]) ∧
      handle t ⟨none, .create (some u) (some d)⟩
        = (.resp ⟨500, some (msgJson "Failed to create user")⟩, t,
            ["Failed to create user: " ++ d]) ∧
      handle t ⟨none, .update id (some u) (some d)⟩
        = (.resp ⟨500, some (msgJson "Failed to update user")⟩, t,
            ["Failed to update user: " ++ d]) ∧
      handle t ⟨none, .del id (some d)⟩
        = (.resp ⟨500, some (msgJson "Failed to delete user")⟩, t,
            ["Failed to delete user: " ++ d]) :=
  ⟨rfl, rfl, rfl, rfl, rfl⟩

/-- C9 (code bug, evaluated at the failing input): the Update half is real
code and works as claimed — a PUT on id `x` with no stored item responds
200 (no 404 check exists) and creates under `x` an item holding exactly
the `id` key and the set `name` and `age`, the age as the decimal `N`
string `"5"`.  The claim's `subsequent Get succeeds` then rests on the
read-back of that string, but the source's `int(*result.Item["age"].N)`
is an integer conversion of a string that Go does not define, so the Get's
success is the spec's intent with no code semantics behind it. -/
theorem update_missing_creates_decimal_item :
    (handle [] ⟨none, .update "x" (some ⟨"ig", "Bob", 5⟩) none⟩).1
        = .resp ⟨200, some (userJson ⟨"ig", "Bob", 5⟩)⟩ ∧
      Table.getItem ((handle [] ⟨none, .update "x" (some ⟨"ig", "Bob", 5⟩) none⟩).2.1) "x"
        = some [("id", ⟨some "x", none⟩), ("name", ⟨some "Bob", none⟩),
            ("age", ⟨none, some "5"⟩)] :=
  ⟨rfl, rfl⟩

/-- C10: when the store returns an item on which the record-mapping step
has no value (an attribute absent or not in the expected string/numeric
form), a Get finding that item and a List scanning it both panic in the
mapping step, and the recovery middleware turns the panic into a 500
response with Echo's default message instead of terminating the process. -/
theorem malformed_item_500_not_crash (t : Table) (id : String) (item : Item)
    (hget : Table.getItem t id = some item) (hmem : item ∈ t.scan)
    (hbad : itemMalformed item) :
    (handle t ⟨none, .get id none⟩).1 = .panicked ∧
      (serve t ⟨none, .get id none⟩).1
        = .response ⟨500, some (msgJson "Internal Server Error")⟩ ∧
      (processRun t [⟨none, .get id none⟩]).halted = false ∧
      (handle t ⟨none, .list none⟩).1 = .panicked ∧
      (serve t ⟨none, .list none⟩).1
        = .response ⟨500, some (msgJson "Internal Server Error")⟩ ∧
      (processRun t [⟨none, .list none⟩]).halted = false := by
  have hbadU := itemToUser_of_malformed item hbad
  have hg : handle t ⟨none, .get id none⟩ = (.panicked, t, []) := by
    show getUser t id none = _
    simp [getUser, hget, hbadU]
  have hscan : scanUsers t.scan = none := scanUsers_of_malformed item hbad t.scan hmem
  have hl : handle t ⟨none, .list none⟩ = (.panicked, t, []) := by
    show getUsers t none = _
    simp [getUsers, hscan]
  refine ⟨by rw [hg], ?_, ?_, by rw [hl], ?_, ?_⟩
  · simp [serve, hg]
  · simp [processRun, serve, hg]
  · simp [serve, hl]
  · simp [processRun, serve, hl]

/-- C10 witness: a table holding one item that lacks the `name` and `age`
attributes. -/
theorem malformed_item_500_not_crash_witness :
    Table.getItem badTable "u1" = some badItem ∧
      badItem ∈ Table.scan badTable ∧
      itemMalformed badItem ∧
      ((handle badTable ⟨none, .get "u1" none⟩).1 = .panicked ∧
        (serve badTable ⟨none, .get "u1" none⟩).1
          = .response ⟨500, some (msgJson "Internal Server Error")⟩ ∧
        (processRun badTable [⟨none, .get "u1" none⟩]).halted = false ∧
        (handle badTable ⟨none, .list none⟩).1 = .panicked ∧
        (serve badTable ⟨none, .list none⟩).1
          = .response ⟨500, some (msgJson "Internal Server Error")⟩ ∧
        (processRun badTable [⟨none, .list none⟩]).halted = false) :=
  ⟨rfl, by decide, by decide,
    malformed_item_500_not_crash badTable "u1" badItem rfl (by decide) (by decide)⟩

end GoDynamoEcho
